import Mathlib

/-!
Verification of the conservative Twitter outreach qualification and
sequencing engine (`TwitterOutreachStrategy` in
`utils/twitter-outreach-strategy.js`, whose full text is embedded in
`TROUBLESHOOTING-GITHUB-ACTIONS.md`).

The JavaScript class is shallowly embedded: JS objects become structures,
fields that the code reads with truthiness guards (`lead.username && ...`,
`lead.bio?.`, `tweet.engagement &&`) become `Option` fields, JS numbers
become `Int` (counts) or `Rat` (engagement-rate arithmetic), JS booleans
become `Bool`, and JS string operations (`toLowerCase`, `includes`,
`replace`, `split`, `trim`) are reimplemented over `List Char` with the
same observable behaviour.  The wall-clock comparison
`new Date() - new Date(lead.lastActivity)` is embedded by storing the
prospect's age of last activity in milliseconds (`lastActivityAgeMs`),
the quantity the code actually compares against its day windows.
-/

/-- Engagement counts attached to a recent tweet (`tweet.engagement`). -/
structure Engagement where
  likes : Int
  comments : Int
deriving DecidableEq

/-- A recent tweet of a prospect (`lead.recentTweets[i]`).  The engagement
object is optional because the code guards it (`tweet.engagement &&`,
`tweet.engagement?.likes || 0`). -/
structure Tweet where
  text : String
  engagement : Option Engagement
deriving DecidableEq

/-- A prospect record (`lead`).  Every field the predicates read behind a
JS truthiness or optional-chaining guard is an `Option`, so an absent
(`undefined`) field is `none`. -/
structure Lead where
  username : Option String
  bio : Option String
  keywords : Option (List String)
  recentTweets : Option (List Tweet)
  lastActivityAgeMs : Option Int
  followerCount : Option Int
  hasEngagedWithUs : Option Bool
  mutualConnections : Option (List String)
deriving DecidableEq

/-- One remaining-count entry of the API quota snapshot
(`apiQuota.<kind>.remaining`); only `remaining` is read by the engine. -/
structure QuotaEntry where
  remaining : Int
deriving DecidableEq

/-- The quota snapshot handed to `getOutreachSequence` (`apiQuota`). -/
structure ApiQuota where
  userLookup : QuotaEntry
  tweetLookup : QuotaEntry
  follow : QuotaEntry
  like : QuotaEntry
  dmSend : QuotaEntry
deriving DecidableEq

/-- The action kinds that `getOutreachSequence` ever emits. -/
inductive ActionKind where
  | research
  | follow
  | like
  | dmSend
deriving DecidableEq

/-- One step of an outreach sequence, exactly the object literal the JS
pushes: `{action, priority, reason, apiCost}`. -/
structure OutreachStep where
  action : ActionKind
  priority : Nat
  reason : String
  apiCost : String
deriving DecidableEq

/-- The `targetingCriteria` constant from the constructor. -/
structure TargetingCriteria where
  minFollowers : Int
  maxFollowers : Int
  minEngagement : Rat
  recentActivity : Int
  relevantKeywords : List String
  excludeKeywords : List String

/-- Source: `this.targetingCriteria` in the constructor.  Note that the
code stores `minEngagement: 0.5` (annotated there as "0.5% engagement
rate minimum") and later compares the raw likes/followers fraction
against it. -/
def targetingCriteria : TargetingCriteria :=
  { minFollowers := 100
    maxFollowers := 50000
    minEngagement := mkRat 5 10
    recentActivity := 7
    relevantKeywords := ["AI", "automation", "SaaS", "marketing", "sales", "growth", "startup", "tech"]
    excludeKeywords := ["spam", "bot", "fake", "buy followers"] }

/-! String helpers mirroring the JS string methods used by the class. -/

/-- Locate the first occurrence of `pat` in `s`, returning the characters
before it and the characters after it.  This is the search underlying
`String.prototype.includes` and `String.prototype.replace`. -/
def splitFirst : List Char → List Char → Option (List Char × List Char)
  | [], pat => if pat.isEmpty then some ([], []) else none
  | c :: rest, pat =>
    if pat.isPrefixOf (c :: rest) then some ([], (c :: rest).drop pat.length)
    else
      match splitFirst rest pat with
      | some (pre, post) => some (c :: pre, post)
      | none => none

/-- JS `s.includes(pat)`. -/
def jsIncludesL (s pat : List Char) : Bool := (splitFirst s pat).isSome

/-- JS `s.toLowerCase()` (ASCII case folding, which is all the embedded
constants and inputs exercise), exposed as a character list. -/
def lowerStr (s : String) : List Char := s.data.map Char.toLower

theorem splitFirst_post_lt (s : List Char) : ∀ (pat pre post : List Char), pat ≠ [] →
    splitFirst s pat = some (pre, post) → post.length < s.length := by
  induction s with
  | nil =>
    intro pat pre post hpat h
    simp [splitFirst, List.isEmpty_iff, hpat] at h
  | cons c rest ih =>
    intro pat pre post hpat h
    unfold splitFirst at h
    split at h
    · rw [Option.some.injEq, Prod.mk.injEq] at h
      have hpost : post = (c :: rest).drop pat.length := h.2.symm
      have hlen : 1 ≤ pat.length := by
        cases pat with
        | nil => exact absurd rfl hpat
        | cons p ps => simp
      subst hpost
      simp only [List.length_drop, List.length_cons]
      omega
    · cases hm : splitFirst rest pat with
      | none => rw [hm] at h; exact absurd h (by simp)
      | some pp =>
        rw [hm] at h
        rw [Option.some.injEq] at h
        have hpost : post = pp.2 := by
          cases pp
          rw [Prod.mk.injEq] at h
          exact h.2.symm
        subst hpost
        have := ih pat pp.1 pp.2 hpat (by cases pp; exact hm)
        simp only [List.length_cons]
        omega

/-- JS `s.replace(pat, rep)` with a plain-string pattern: replace the
first occurrence only. -/
def replaceFirstL (s pat rep : List Char) : List Char :=
  match splitFirst s pat with
  | some (pre, post) => pre ++ rep ++ post
  | none => s

/-- Fuel-driven worker for `replaceAllL`; structural recursion on the
fuel keeps the function kernel-computable. -/
def replaceAllAux : Nat → List Char → List Char → List Char → List Char
  | 0, s, _, _ => s
  | fuel + 1, s, pat, rep =>
    match splitFirst s pat with
    | some (pre, post) => pre ++ rep ++ replaceAllAux fuel post pat rep
    | none => s

/-- JS `s.replace(/pat/g, rep)`: replace every occurrence.  For the
non-empty patterns the source uses, `s.length + 1` rounds of fuel are
always enough: by `splitFirst_post_lt` every replacement strictly
shrinks the yet-unscanned remainder of `s`, so the recursion stops on a
`none` (or on `[]`) before the fuel does.  The source never replaces an
empty pattern globally, so that branch just returns `s`. -/
def replaceAllL (s pat rep : List Char) : List Char :=
  if pat.isEmpty then s else replaceAllAux (s.length + 1) s pat rep

/-- JS `message.replace(pat, rep)` (first occurrence) on `String`. -/
def jsReplaceFirst (s pat rep : String) : String :=
  String.mk (replaceFirstL s.data pat.data rep.data)

/-- JS `message.replace(/pat/g, rep)` (all occurrences) on `String`. -/
def jsReplaceAll (s pat rep : String) : String :=
  String.mk (replaceAllL s.data pat.data rep.data)

/-! Qualification predicates.  Each named criterion below is one entry of
the corresponding JS criteria object, under its source name. -/

/-- Criterion `hasUsername` of `isWorthResearching`:
`lead.username && lead.username.length > 0`. -/
def hasUsername (lead : Lead) : Bool :=
  match lead.username with
  | some u => decide (0 < u.length)
  | none => false

/-- Criterion `noSpamKeywords` of `isWorthResearching`: no exclude-list
marker occurs in the lowercased username or bio
(`!excludeKeywords.some(kw => lead.username?.toLowerCase().includes(kw) || lead.bio?.toLowerCase().includes(kw))`). -/
def noSpamKeywords (lead : Lead) : Bool :=
  !(targetingCriteria.excludeKeywords.any fun keyword =>
      (match lead.username with
       | some u => jsIncludesL (lowerStr u) keyword.data
       | none => false) ||
      (match lead.bio with
       | some b => jsIncludesL (lowerStr b) keyword.data
       | none => false))

/-- Criterion `hasRelevantKeywords` of `isWorthResearching`: some keyword
tag contains (case-insensitively) some relevant topic. -/
def hasRelevantKeywords (lead : Lead) : Bool :=
  match lead.keywords with
  | some ks =>
    ks.any fun keyword =>
      targetingCriteria.relevantKeywords.any fun relevant =>
        jsIncludesL (lowerStr keyword) (lowerStr relevant)
  | none => false

/-- Source: `isWorthResearching(lead)` — all three basic criteria must
hold (`Object.values(basicCriteria).every(Boolean)`). -/
def isWorthResearching (lead : Lead) : Bool :=
  hasUsername lead && noSpamKeywords lead && hasRelevantKeywords lead

/-- Criterion `hasRecentActivity` of `isWorthEngaging`
(`lead.recentTweets && lead.recentTweets.length > 0`); the sequence
builder repeats the same expression before appending the like step. -/
def hasRecentActivity (lead : Lead) : Bool :=
  match lead.recentTweets with
  | some ts => !ts.isEmpty
  | none => false

/-- Criterion `goodEngagement` of `isWorthEngaging`: some recent tweet has
an engagement object with `likes > 3 || comments > 0`. -/
def goodEngagement (lead : Lead) : Bool :=
  match lead.recentTweets with
  | some ts =>
    ts.any fun tweet =>
      match tweet.engagement with
      | some e => decide (3 < e.likes) || decide (0 < e.comments)
      | none => false
  | none => false

/-- Criterion `relevantContent` of `isWorthEngaging`
(`lead.keywords && lead.keywords.length > 0`). -/
def relevantContent (lead : Lead) : Bool :=
  match lead.keywords with
  | some ks => !ks.isEmpty
  | none => false

/-- Criterion `activeUser` of `isWorthEngaging`: last activity strictly
within `recentActivity` days (in milliseconds). -/
def activeUser (lead : Lead) : Bool :=
  match lead.lastActivityAgeMs with
  | some age => decide (age < targetingCriteria.recentActivity * 24 * 60 * 60 * 1000)
  | none => false

/-- Criterion `reasonableFollowerCount` of `isWorthEngaging`:
`minFollowers <= followerCount <= maxFollowers`. -/
def reasonableFollowerCount (lead : Lead) : Bool :=
  match lead.followerCount with
  | some fc => decide (targetingCriteria.minFollowers ≤ fc) && decide (fc ≤ targetingCriteria.maxFollowers)
  | none => false

/-- The reduce in the engagement-rate computations:
`lead.recentTweets.reduce((total, tweet) => total + (tweet.engagement?.likes || 0), 0)`. -/
def sumRecentLikes (tweets : List Tweet) : Int :=
  tweets.foldl
    (fun total tweet =>
      total + (match tweet.engagement with | some e => e.likes | none => 0))
    0

/-- Criterion `goodEngagementRate` of `isWorthEngaging`:
`lead.followerCount > 0 && (sumLikes / lead.followerCount) >= minEngagement`.
The division happens only behind the `followerCount > 0` guard; an absent
`recentTweets` makes the JS comparison `NaN >= x`, i.e. false.  The JS
number division is embedded as exact rational division: `Rat.divInt a b`
is definitionally `(a : Rat) / (b : Rat)` (see `divInt_is_cast_div`
below) and, unlike the cast-and-divide spelling, evaluates inside the
kernel. -/
def goodEngagementRate (lead : Lead) : Bool :=
  match lead.followerCount with
  | some fc =>
    decide (0 < fc) &&
      (match lead.recentTweets with
       | some ts => decide (targetingCriteria.minEngagement ≤ Rat.divInt (sumRecentLikes ts) fc)
       | none => false)
  | none => false

/-- Evidence that the `Rat.divInt` spelling used by the engagement-rate
criteria is ordinary division of the two integers inside `Rat`. -/
theorem divInt_is_cast_div (a b : Int) : Rat.divInt a b = (a : Rat) / (b : Rat) :=
  Rat.divInt_eq_div a b

/-- Source: `isWorthEngaging(lead)` — at least 3 of the 6 criteria
(`Object.values(criteria).filter(Boolean).length >= 3`). -/
def isWorthEngaging (lead : Lead) : Bool :=
  let criteria := [hasRecentActivity lead, goodEngagement lead, relevantContent lead,
                   activeUser lead, reasonableFollowerCount lead, goodEngagementRate lead]
  decide (3 ≤ (criteria.filter (fun b => b)).length)

/-- Criterion `hasEngagedWithUs` of `isHighlyQualified`
(`lead.hasEngagedWithUs || false`). -/
def hasEngagedWithUsCrit (lead : Lead) : Bool :=
  lead.hasEngagedWithUs.getD false

/-- Criterion `mutualConnections` of `isHighlyQualified`
(`lead.mutualConnections && lead.mutualConnections.length > 0`). -/
def mutualConnectionsCrit (lead : Lead) : Bool :=
  match lead.mutualConnections with
  | some ms => !ms.isEmpty
  | none => false

/-- Criterion `highEngagementRate` of `isHighlyQualified`: like
`goodEngagementRate` but against the inline constant `1.0` (annotated in
the source as "1% engagement"). -/
def highEngagementRate (lead : Lead) : Bool :=
  match lead.followerCount with
  | some fc =>
    decide (0 < fc) &&
      (match lead.recentTweets with
       | some ts => decide (mkRat 1 1 ≤ Rat.divInt (sumRecentLikes ts) fc)
       | none => false)
  | none => false

/-- Criterion `veryRecentActivity` of `isHighlyQualified`: last activity
strictly within 3 days. -/
def veryRecentActivity (lead : Lead) : Bool :=
  match lead.lastActivityAgeMs with
  | some age => decide (age < 3 * 24 * 60 * 60 * 1000)
  | none => false

/-- Criterion `perfectMatch` of `isHighlyQualified`: some keyword tag
contains one of `['AI', 'automation', 'SaaS']` case-insensitively. -/
def perfectMatch (lead : Lead) : Bool :=
  match lead.keywords with
  | some ks =>
    ks.any fun keyword =>
      (["AI", "automation", "SaaS"]).any fun perfect =>
        jsIncludesL (lowerStr keyword) (lowerStr perfect)
  | none => false

/-- Source: `isHighlyQualified(lead)` — at least 2 of the 5 strict
criteria. -/
def isHighlyQualified (lead : Lead) : Bool :=
  let strictCriteria := [hasEngagedWithUsCrit lead, mutualConnectionsCrit lead,
                         highEngagementRate lead, veryRecentActivity lead, perfectMatch lead]
  decide (2 ≤ (strictCriteria.filter (fun b => b)).length)

/-! The sequence builder. -/

/-- The research step object literal pushed by `getOutreachSequence`. -/
def researchStep : OutreachStep :=
  { action := .research, priority := 1, reason := "Gather data for qualification", apiCost := "low" }

/-- The follow step object literal pushed by `getOutreachSequence`. -/
def followStep : OutreachStep :=
  { action := .follow, priority := 2, reason := "Build relationship first (conservative approach)", apiCost := "medium" }

/-- The like step object literal pushed by `getOutreachSequence`. -/
def likeStep : OutreachStep :=
  { action := .like, priority := 3, reason := "Show appreciation for recent content", apiCost := "medium" }

/-- The DM step object literal pushed by `getOutreachSequence`. -/
def dmStep : OutreachStep :=
  { action := .dmSend, priority := 4, reason := "Direct outreach only to highly qualified leads", apiCost := "high" }

/-- Source: `getOutreachSequence(lead, apiQuota)`.  The three `if` blocks
of the JS run in order, each appending to the accumulated sequence. -/
def getOutreachSequence (lead : Lead) (apiQuota : ApiQuota) : List OutreachStep :=
  let sequence1 : List OutreachStep :=
    if decide (0 < apiQuota.userLookup.remaining) && isWorthResearching lead then
      [researchStep]
    else []
  let sequence2 : List OutreachStep :=
    if decide (0 < apiQuota.follow.remaining) && decide (0 < apiQuota.like.remaining) && isWorthEngaging lead then
      if hasRecentActivity lead && decide (0 < apiQuota.like.remaining) then
        sequence1 ++ [followStep, likeStep]
      else
        sequence1 ++ [followStep]
    else sequence1
  if decide (0 < apiQuota.dmSend.remaining) && isHighlyQualified lead && decide (2 ≤ sequence2.length) then
    sequence2 ++ [dmStep]
  else
    sequence2

/-! The message renderer.  Literal braces of the JS template strings are
written with the `\x7b` and `\x7d` escapes and literal apostrophes with
`\x27`; the string contents are identical to the source. -/

/-- Source: `this.dmTemplates` in the constructor, as a lookup from the
template id to the template text (`this.dmTemplates[type]`); ids outside
the catalog yield `none` (JS `undefined`). -/
def dmTemplates (type : String) : Option String :=
  if type = "initial" then
    some "Hi \x7b\x7busername\x7d\x7d! Loved your thread about \x7b\x7bthreadTopic\x7d\x7d. Your point about \x7b\x7bspecificInsight\x7d\x7d really resonated. I\x27m building \x7b\x7bsolution\x7d\x7d and think you might find \x7b\x7bvalue\x7d\x7d interesting. Would you be open to a quick chat?"
  else if type = "followUp" then
    some "Hi \x7b\x7busername\x7d\x7d! Just wanted to follow up on my previous message about \x7b\x7btopic\x7d\x7d. No pressure, but I\x27d love to share some insights that might be valuable for your work. Cheers!"
  else if type = "warm" then
    some "Hi \x7b\x7busername\x7d\x7d! Thanks for the follow back. I noticed your recent post about \x7b\x7brecentTopic\x7d\x7d - really insightful! I\x27m working on similar \x7b\x7bsolution\x7d\x7d initiatives and would love to connect. Best regards!"
  else none

/-- The fixed topic list scanned by `extractTopicFromTweet`. -/
def topicKeywords : List String :=
  ["AI", "automation", "SaaS", "marketing", "sales", "product", "growth", "technology", "startups"]

/-- Source: `extractTopicFromTweet(content)` — first topic whose
lowercased text occurs in the lowercased content, else "tech trends". -/
def extractTopicFromTweet (content : String) : String :=
  match topicKeywords.find? (fun topic => jsIncludesL (lowerStr content) (lowerStr topic)) with
  | some topic => topic
  | none => "tech trends"

/-- JS `s.trim()` (the inputs only exercise ASCII whitespace). -/
def jsTrimL (s : List Char) : List Char :=
  ((s.dropWhile Char.isWhitespace).reverse.dropWhile Char.isWhitespace).reverse

/-- JS `text.split('.')` on the character list. -/
def splitOnDot : List Char → List (List Char)
  | [] => [[]]
  | c :: rest =>
    if c = '.' then [] :: splitOnDot rest
    else
      match splitOnDot rest with
      | [] => [[c]]
      | h :: t => (c :: h) :: t

/-- Source: `extractInsight(text)` — first fragment of the `.`-split whose
trimmed length exceeds 10, trimmed and cut to 50 characters with a
trailing ellipsis; otherwise the fallback "your perspective". -/
def extractInsight (text : String) : String :=
  let sentences := (splitOnDot text.data).filter (fun s => 10 < (jsTrimL s).length)
  match sentences with
  | s :: _ => String.mk ((jsTrimL s).take 50 ++ ("...".data))
  | [] => "your perspective"

/-- Source: `generateDMMessage(type, lead, tweetData)`.  Unknown template
ids return `none` (JS `null`).  Each replacement block runs only behind
the same truthiness guards as the JS (`lead.username`, `tweetData &&
tweetData.text`, `lead.keywords && lead.keywords.length > 0`), and only
`\x7b\x7busername\x7d\x7d` is replaced globally — the others use the
first-occurrence `String.prototype.replace`. -/
def generateDMMessage (type : String) (lead : Lead) (tweetData : Option Tweet) : Option String :=
  match dmTemplates type with
  | none => none
  | some template =>
    let message := template
    let message :=
      match lead.username with
      | some u => if u.data.isEmpty then message else jsReplaceAll message "\x7b\x7busername\x7d\x7d" u
      | none => message
    let message :=
      match tweetData with
      | some td =>
        if td.text.data.isEmpty then message
        else
          let threadTopic := extractTopicFromTweet td.text
          let specificInsight := extractInsight td.text
          let message := jsReplaceFirst message "\x7b\x7bthreadTopic\x7d\x7d" threadTopic
          jsReplaceFirst message "\x7b\x7bspecificInsight\x7d\x7d" specificInsight
      | none => message
    let message :=
      match lead.keywords with
      | some [] | none => message
      | some (k :: _) =>
        let message := jsReplaceFirst message "\x7b\x7btopic\x7d\x7d" k
        jsReplaceFirst message "\x7b\x7bfield\x7d\x7d" k
    let message := jsReplaceFirst message "\x7b\x7bsolution\x7d\x7d" "AI automation tools"
    let message := jsReplaceFirst message "\x7b\x7bvalue\x7d\x7d" "some insights"
    some message

/-! Concrete inputs used by the scenario theorems, counterexamples and
witnesses. -/

/-- The scenario prospect of the spec (§8): handle "sarah_tech", 2500
followers, keywords AI and automation, one recent post with 45 likes and
8 comments, last activity 2 days ago, has engaged with us, two mutual
connections. -/
def sarahLead : Lead :=
  { username := some "sarah_tech"
    bio := none
    keywords := some ["AI", "automation"]
    recentTweets := some [{ text := "Just launched our new AI automation tool!", engagement := some { likes := 45, comments := 8 } }]
    lastActivityAgeMs := some (2 * 24 * 60 * 60 * 1000)
    followerCount := some 2500
    hasEngagedWithUs := some true
    mutualConnections := some ["a", "b"] }

/-- The all-positive quota snapshot of the repository's own test driver
(`test-conservative-twitter-outreach.js`). -/
def mockQuota : ApiQuota :=
  { userLookup := { remaining := 25 }
    tweetLookup := { remaining := 15 }
    follow := { remaining := 12 }
    like := { remaining := 20 }
    dmSend := { remaining := 4 } }

/-- `mockQuota` with the direct-message allowance exhausted. -/
def quotaNoDM : ApiQuota :=
  { mockQuota with dmSend := { remaining := 0 } }

/-- A prospect with every optional field absent. -/
def emptyLead : Lead :=
  { username := none, bio := none, keywords := none, recentTweets := none,
    lastActivityAgeMs := none, followerCount := none, hasEngagedWithUs := none,
    mutualConnections := none }

/-- A prospect whose keyword tag "AI bot" contains the exclude-list
marker "bot" while username and bio are clean. -/
def kwSpamLead : Lead :=
  { emptyLead with username := some "alice", keywords := some ["AI bot"] }

/-- A prospect with a non-empty handle but an empty keyword-tag list. -/
def kwEmptyLead : Lead :=
  { emptyLead with username := some "alice", keywords := some [] }

/-- A prospect for which the engagement-rate criterion is the deciding
vote of `isWorthEngaging`: one recent post with 10 likes, 50 followers
(below the follower band), no keywords and no activity timestamp.  Its
likes/followers rate is 1/5 = 20%. -/
def engRateLead : Lead :=
  { emptyLead with
      username := some "indie_dev"
      recentTweets := some [{ text := "", engagement := some { likes := 10, comments := 0 } }]
      followerCount := some 50 }

/-- A prospect that is worth engaging and highly qualified but has no
username, so it is not worth researching: its sequence starts with the
follow step. -/
def noResearchLead : Lead :=
  { username := none
    bio := none
    keywords := some ["AI"]
    recentTweets := some [{ text := "", engagement := some { likes := 5, comments := 1 } }]
    lastActivityAgeMs := some (1 * 24 * 60 * 60 * 1000)
    followerCount := some 1000
    hasEngagedWithUs := some true
    mutualConnections := some ["a"] }

/-- `sarahLead` with the recent posts removed (the C8 scenario: a
prospect with no recent posts and no context post supplied). -/
def sarahNoPosts : Lead :=
  { sarahLead with recentTweets := none }

/-! Definitions written from the spec's words, for comparison with the
source functions (refinement / divergence claims). -/

/-- Follows the spec's words for the engagement-rate criterion of
`worthEngaging`: "computed engagement rate (sum of recent-post like
counts ÷ follower count) ≥ a configured minimum (default 0.5%)", i.e.
threshold 0.005 instead of the source's raw `0.5`. -/
def goodEngagementRateSpec (lead : Lead) : Bool :=
  match lead.followerCount with
  | some fc =>
    decide (0 < fc) &&
      (match lead.recentTweets with
       | some ts => decide (mkRat 5 1000 ≤ Rat.divInt (sumRecentLikes ts) fc)
       | none => false)
  | none => false

/-- Follows the spec's words for `worthEngaging`: at least 3 of the same
6 criteria, with the engagement-rate criterion read at 0.5% = 0.005. -/
def isWorthEngagingSpec (lead : Lead) : Bool :=
  let criteria := [hasRecentActivity lead, goodEngagement lead, relevantContent lead,
                   activeUser lead, reasonableFollowerCount lead, goodEngagementRateSpec lead]
  decide (3 ≤ (criteria.filter (fun b => b)).length)

/-- Follows claim C4's words for `worthResearching`: non-empty handle,
no spam marker in any keyword tag or text field (handle, bio), and some
keyword tag matching the relevant-topic list. -/
def worthResearchingClaim (lead : Lead) : Bool :=
  hasUsername lead &&
  !(targetingCriteria.excludeKeywords.any fun keyword =>
      (match lead.username with
       | some u => jsIncludesL (lowerStr u) keyword.data
       | none => false) ||
      (match lead.bio with
       | some b => jsIncludesL (lowerStr b) keyword.data
       | none => false) ||
      (match lead.keywords with
       | some ks => ks.any fun k => jsIncludesL (lowerStr k) keyword.data
       | none => false)) &&
  hasRelevantKeywords lead

/-! Shape enumeration for the sequence builder: every reachable output,
together with the quota and qualification facts its construction needed.
This is the shared workhorse behind the sequence invariants. -/

/-- Enumeration of every sequence `getOutreachSequence` can return, with
the guards that held when it was built. -/
theorem getOutreachSequence_cases (lead : Lead) (q : ApiQuota) :
    getOutreachSequence lead q = [] ∨
    (getOutreachSequence lead q = [researchStep] ∧ 0 < q.userLookup.remaining) ∨
    (getOutreachSequence lead q = [followStep] ∧ 0 < q.follow.remaining ∧ 0 < q.like.remaining) ∨
    (getOutreachSequence lead q = [researchStep, followStep] ∧
      0 < q.userLookup.remaining ∧ 0 < q.follow.remaining ∧ 0 < q.like.remaining) ∨
    (getOutreachSequence lead q = [followStep, likeStep] ∧
      0 < q.follow.remaining ∧ 0 < q.like.remaining) ∨
    (getOutreachSequence lead q = [researchStep, followStep, likeStep] ∧
      0 < q.userLookup.remaining ∧ 0 < q.follow.remaining ∧ 0 < q.like.remaining) ∨
    (getOutreachSequence lead q = [researchStep, followStep, dmStep] ∧
      0 < q.userLookup.remaining ∧ 0 < q.follow.remaining ∧ 0 < q.like.remaining ∧
      0 < q.dmSend.remaining ∧ isHighlyQualified lead = true) ∨
    (getOutreachSequence lead q = [followStep, likeStep, dmStep] ∧
      0 < q.follow.remaining ∧ 0 < q.like.remaining ∧
      0 < q.dmSend.remaining ∧ isHighlyQualified lead = true) ∨
    (getOutreachSequence lead q = [researchStep, followStep, likeStep, dmStep] ∧
      0 < q.userLookup.remaining ∧ 0 < q.follow.remaining ∧ 0 < q.like.remaining ∧
      0 < q.dmSend.remaining ∧ isHighlyQualified lead = true) := by
  by_cases h1 : 0 < q.userLookup.remaining <;>
  by_cases h2 : isWorthResearching lead = true <;>
  by_cases h3 : 0 < q.follow.remaining <;>
  by_cases h4 : 0 < q.like.remaining <;>
  by_cases h5 : isWorthEngaging lead = true <;>
  by_cases h6 : hasRecentActivity lead = true <;>
  by_cases h7 : 0 < q.dmSend.remaining <;>
  by_cases h8 : isHighlyQualified lead = true <;>
  simp [getOutreachSequence, h1, h2, h3, h4, h5, h6, h7, h8,
    researchStep, followStep, likeStep, dmStep]

/-- The quota-snapshot entry the sequence builder consults for each
action kind it can emit (research is gated on the user-lookup
allowance). -/
def quotaFor (q : ApiQuota) : ActionKind → Int
  | .research => q.userLookup.remaining
  | .follow => q.follow.remaining
  | .like => q.like.remaining
  | .dmSend => q.dmSend.remaining

/-- The fixed priority rank each action kind carries in the object
literals of `getOutreachSequence`. -/
def actionRank : ActionKind → Nat
  | .research => 1
  | .follow => 2
  | .like => 3
  | .dmSend => 4

/-- C1: for every prospect and quota snapshot, the sequence returned by
`getOutreachSequence` contains a direct-message (`dmSend`) step only at a
position with at least two earlier steps, and only when
`isHighlyQualified` holds for the prospect. -/
theorem dm_requires_two_prior_steps_and_qualification (lead : Lead) (q : ApiQuota) (n : Nat)
    (hn : ((getOutreachSequence lead q).map OutreachStep.action)[n]? = some ActionKind.dmSend) :
    2 ≤ n ∧ isHighlyQualified lead = true := by
  rcases getOutreachSequence_cases lead q with
    h | ⟨h, -⟩ | ⟨h, -⟩ | ⟨h, -⟩ | ⟨h, -⟩ | ⟨h, -⟩ | ⟨h, -, -, -, -, hq⟩ | ⟨h, -, -, -, hq⟩ | ⟨h, -, -, -, -, hq⟩ <;>
    rw [h] at hn <;>
    (rcases n with _ | _ | _ | _ | n <;> simp_all [researchStep, followStep, likeStep, dmStep])

/-- Witness for C1: in the sarah scenario the `dmSend` step sits at
index 3, so the theorem applies with both hypotheses discharged. -/
theorem dm_gating_witness : 2 ≤ 3 ∧ isHighlyQualified sarahLead = true :=
  dm_requires_two_prior_steps_and_qualification sarahLead mockQuota 3 (by decide)

/-- C2: no step appears in a sequence unless the quota entry the builder
consults for its action kind is positive; in particular a zero
direct-message allowance excludes the `dmSend` step regardless of
qualification. -/
theorem no_action_without_quota (lead : Lead) (q : ApiQuota) :
    (∀ step ∈ getOutreachSequence lead q, 0 < quotaFor q step.action) ∧
    (q.dmSend.remaining = 0 → ActionKind.dmSend ∉ (getOutreachSequence lead q).map OutreachStep.action) := by
  rcases getOutreachSequence_cases lead q with
    h | ⟨h, hg⟩ | ⟨h, hg⟩ | ⟨h, hg⟩ | ⟨h, hg⟩ | ⟨h, hg⟩ | ⟨h, hg⟩ | ⟨h, hg⟩ | ⟨h, hg⟩ <;>
    rw [h] <;>
    simp_all [quotaFor, researchStep, followStep, likeStep, dmStep] <;>
    omega

/-- Witness for C2: with the direct-message allowance at zero, the sarah
sequence still contains the research step (with positive quota) and
contains no `dmSend` step. -/
theorem no_action_without_quota_witness :
    0 < quotaFor quotaNoDM researchStep.action ∧
    ActionKind.dmSend ∉ (getOutreachSequence sarahLead quotaNoDM).map OutreachStep.action :=
  ⟨(no_action_without_quota sarahLead quotaNoDM).1 researchStep (by decide),
   (no_action_without_quota sarahLead quotaNoDM).2 rfl⟩

/-- Counterexample for C6 as stated: for a prospect that is worth
engaging and highly qualified but not worth researching (no username),
the sequence is non-empty and its first step has priority rank 2, not
1. -/
theorem sequence_first_priority_can_be_two :
    getOutreachSequence noResearchLead mockQuota ≠ [] ∧
    (getOutreachSequence noResearchLead mockQuota).head?.map OutreachStep.priority = some 2 := by
  decide

/-- C6 (amended): the priority ranks along any returned sequence are
strictly increasing, and every step carries the fixed rank of its action
(research 1, follow 2, like 3, dmSend 4); a sequence that skips the
research step therefore starts at rank 2 rather than 1. -/
theorem priorities_strictly_increasing (lead : Lead) (q : ApiQuota) :
    List.Chain' (· < ·) ((getOutreachSequence lead q).map OutreachStep.priority) ∧
    (getOutreachSequence lead q).map OutreachStep.priority =
      (getOutreachSequence lead q).map (fun step => actionRank step.action) := by
  rcases getOutreachSequence_cases lead q with
    h | ⟨h, -⟩ | ⟨h, -⟩ | ⟨h, -⟩ | ⟨h, -⟩ | ⟨h, -⟩ | ⟨h, -⟩ | ⟨h, -⟩ | ⟨h, -⟩ <;>
    rw [h] <;>
    constructor <;>
    simp [List.chain'_cons, actionRank, researchStep, followStep, likeStep, dmStep]

/-- C10: every returned sequence has at most 4 steps, its action kinds
form a subsequence of research, follow, like, dmSend (so each kind occurs
at most once and in that relative order), and a like step only ever sits
immediately after a follow step. -/
theorem sequence_shape_invariants (lead : Lead) (q : ApiQuota) :
    (getOutreachSequence lead q).length ≤ 4 ∧
    ((getOutreachSequence lead q).map OutreachStep.action).Sublist
      [ActionKind.research, ActionKind.follow, ActionKind.like, ActionKind.dmSend] ∧
    (∀ n : Nat, ((getOutreachSequence lead q).map OutreachStep.action)[n]? = some ActionKind.like →
      n ≠ 0 ∧ ((getOutreachSequence lead q).map OutreachStep.action)[n - 1]? = some ActionKind.follow) := by
  rcases getOutreachSequence_cases lead q with
    h | ⟨h, -⟩ | ⟨h, -⟩ | ⟨h, -⟩ | ⟨h, -⟩ | ⟨h, -⟩ | ⟨h, -⟩ | ⟨h, -⟩ | ⟨h, -⟩ <;>
    rw [h] <;>
    refine ⟨by decide, by decide, ?_⟩ <;>
    (intro n hn; rcases n with _ | _ | _ | _ | n <;> simp_all [researchStep, followStep, likeStep, dmStep])

/-- Witness for C10: in the sarah scenario the like step sits at index 2
and the theorem yields the follow step immediately before it. -/
theorem sequence_shape_invariants_witness :
    (getOutreachSequence sarahLead mockQuota).length ≤ 4 ∧
    (2 ≠ 0 ∧ ((getOutreachSequence sarahLead mockQuota).map OutreachStep.action)[2 - 1]? = some ActionKind.follow) :=
  ⟨(sequence_shape_invariants sarahLead mockQuota).1,
   (sequence_shape_invariants sarahLead mockQuota).2.2 2 (by decide)⟩

/-- C3 (divergence): the source compares the likes/followers fraction
against the raw constant `0.5` (a 50% rate), although its own inline
comment documents a "0.5% engagement rate minimum".  For `engRateLead`
(10 likes over 50 followers, rate 20%) the engagement-rate criterion — the
deciding third vote — fails under the source but holds under the spec's
0.5% reading, so `isWorthEngaging` returns false where the claim expects
true. -/
theorem engagement_rate_threshold_divergence :
    isWorthEngaging engRateLead = false ∧ isWorthEngagingSpec engRateLead = true ∧
    goodEngagementRate engRateLead = false ∧ goodEngagementRateSpec engRateLead = true := by
  decide

/-- Counterexample for C4 as stated: a prospect whose keyword tag
"AI bot" contains the exclude-list marker "bot" is still worth
researching under the source (which screens only username and bio for
spam markers), while the claim's predicate rejects it. -/
theorem keyword_spam_marker_not_checked :
    isWorthResearching kwSpamLead = true ∧ worthResearchingClaim kwSpamLead = false := by
  decide

/-- C4 (amended), stated from the spec's words with the spam screen
narrowed to the text fields the source actually checks. -/
def worthResearchingAmended (lead : Lead) : Prop :=
  (∃ u, lead.username = some u ∧ 0 < u.length) ∧
  (∀ marker ∈ targetingCriteria.excludeKeywords,
      (∀ u, lead.username = some u → jsIncludesL (lowerStr u) marker.data = false) ∧
      (∀ b, lead.bio = some b → jsIncludesL (lowerStr b) marker.data = false)) ∧
  (∃ ks, lead.keywords = some ks ∧ ∃ k ∈ ks, ∃ r ∈ targetingCriteria.relevantKeywords,
      jsIncludesL (lowerStr k) (lowerStr r) = true)

/-- C4 (amended): `isWorthResearching` holds exactly when the prospect
has a non-empty handle, no exclude-list spam marker occurs in the
lowercased handle or bio (keyword tags are not screened), and some
keyword tag contains a relevant topic case-insensitively; in particular
it is false whenever the keyword-tag set is absent or empty. -/
theorem worthResearching_characterization (lead : Lead) :
    (isWorthResearching lead = true ↔ worthResearchingAmended lead) ∧
    ((lead.keywords = none ∨ lead.keywords = some []) → isWorthResearching lead = false) := by
  constructor
  · unfold isWorthResearching worthResearchingAmended hasUsername noSpamKeywords hasRelevantKeywords
    cases hu : lead.username <;> cases hb : lead.bio <;> cases hk : lead.keywords <;>
      simp [List.any_eq_true, Bool.or_eq_false_iff, List.any_eq_false, and_assoc]
  · intro h
    rcases h with h | h <;> simp [isWorthResearching, hasRelevantKeywords, h]

/-- Witness for C4: the empty-keyword-list prospect is rejected, via the
second part of the characterization. -/
theorem worthResearching_empty_keywords_witness :
    isWorthResearching kwEmptyLead = false :=
  (worthResearching_characterization kwEmptyLead).2 (Or.inr rfl)

/-- C5: the sarah scenario — worth researching, worth engaging, highly
qualified, and the full four-step sequence research, follow, like,
dmSend in that order under the all-positive quota. -/
theorem sarah_scenario_end_to_end :
    isWorthResearching sarahLead = true ∧ isWorthEngaging sarahLead = true ∧
    isHighlyQualified sarahLead = true ∧
    (getOutreachSequence sarahLead mockQuota).map OutreachStep.action =
      [ActionKind.research, ActionKind.follow, ActionKind.like, ActionKind.dmSend] := by
  decide

/-- C7: a template id outside the fixed catalog (initial, followUp,
warm) makes `generateDMMessage` return the distinguished `none` (JS
`null`) — an explicit unknown-template result, never an empty message
string. -/
theorem unknown_template_returns_none (type : String) (lead : Lead) (tweetData : Option Tweet)
    (h : ¬(type = "initial" ∨ type = "followUp" ∨ type = "warm")) :
    generateDMMessage type lead tweetData = none := by
  have hd : dmTemplates type = none := by
    unfold dmTemplates
    split_ifs with h1 h2 h3
    · exact absurd (Or.inl h1) h
    · exact absurd (Or.inr (Or.inl h2)) h
    · exact absurd (Or.inr (Or.inr h3)) h
    · rfl
  simp [generateDMMessage, hd]

/-- Witness for C7: the spec-side name "reply-insight" is not a key of
the code's catalog, so rendering it yields `none`. -/
theorem unknown_template_witness : generateDMMessage "reply-insight" emptyLead none = none :=
  unknown_template_returns_none "reply-insight" emptyLead none (by decide)

set_option maxRecDepth 200000 in
/-- Counterexample for C8 as stated: rendering the initial template for
the no-posts prospect with no context post leaves the literal
placeholder text in the message and introduces neither documented
fallback string. -/
theorem missing_context_leaves_placeholders :
    (generateDMMessage "initial" sarahNoPosts none).map
      (fun m => jsIncludesL m.data ("\x7b\x7bthreadTopic\x7d\x7d".data) &&
                jsIncludesL m.data ("\x7b\x7bspecificInsight\x7d\x7d".data) &&
                !(jsIncludesL m.data ("tech trends".data)) &&
                !(jsIncludesL m.data ("your perspective".data))) = some true := by
  decide

set_option maxRecDepth 200000 in
/-- C8 (amended): with no context post supplied, the threadTopic and
specificInsight placeholders of the initial template are left as literal
text; the documented fallbacks "tech trends" and "your perspective" are
substituted only when a context post with non-empty text is supplied
whose text matches no topic keyword and has no sentence longer than 10
characters. -/
theorem placeholder_fallback_behavior :
    generateDMMessage "initial" sarahNoPosts none =
      some "Hi sarah_tech! Loved your thread about \x7b\x7bthreadTopic\x7d\x7d. Your point about \x7b\x7bspecificInsight\x7d\x7d really resonated. I\x27m building AI automation tools and think you might find some insights interesting. Would you be open to a quick chat?" ∧
    generateDMMessage "initial" sarahNoPosts (some { text := "Hey there", engagement := none }) =
      some "Hi sarah_tech! Loved your thread about tech trends. Your point about your perspective really resonated. I\x27m building AI automation tools and think you might find some insights interesting. Would you be open to a quick chat?" := by
  constructor <;> decide

/-- C9: absent prospect fields never fault the predicates — each absent
field merely falsifies the criteria that read it, and the
engagement-rate criteria are false (the division never decides the
outcome) whenever the follower count is absent or non-positive.  The
predicates are total Lean functions, the embedding of the JS functions
never throwing. -/
theorem predicates_degrade_on_missing_fields (lead : Lead) :
    (lead.username = none → hasUsername lead = false) ∧
    (lead.keywords = none → relevantContent lead = false ∧ hasRelevantKeywords lead = false ∧ perfectMatch lead = false) ∧
    (lead.recentTweets = none → hasRecentActivity lead = false ∧ goodEngagement lead = false ∧
      goodEngagementRate lead = false ∧ highEngagementRate lead = false) ∧
    (lead.lastActivityAgeMs = none → activeUser lead = false ∧ veryRecentActivity lead = false) ∧
    (lead.followerCount = none → reasonableFollowerCount lead = false ∧
      goodEngagementRate lead = false ∧ highEngagementRate lead = false) ∧
    (∀ fc, lead.followerCount = some fc → fc ≤ 0 →
      goodEngagementRate lead = false ∧ highEngagementRate lead = false) ∧
    (lead.hasEngagedWithUs = none → hasEngagedWithUsCrit lead = false) ∧
    (lead.mutualConnections = none → mutualConnectionsCrit lead = false) := by
  refine ⟨?_, ?_, ?_, ?_, ?_, ?_, ?_, ?_⟩
  · intro h; simp [hasUsername, h]
  · intro h
    exact ⟨by simp [relevantContent, h], by simp [hasRelevantKeywords, h], by simp [perfectMatch, h]⟩
  · intro h
    refine ⟨by simp [hasRecentActivity, h], by simp [goodEngagement, h], ?_, ?_⟩
    · cases hf : lead.followerCount <;> simp [goodEngagementRate, h, hf]
    · cases hf : lead.followerCount <;> simp [highEngagementRate, h, hf]
  · intro h
    exact ⟨by simp [activeUser, h], by simp [veryRecentActivity, h]⟩
  · intro h
    exact ⟨by simp [reasonableFollowerCount, h], by simp [goodEngagementRate, h], by simp [highEngagementRate, h]⟩
  · intro fc hf hfc
    have hneg : ¬ (0 < fc) := by omega
    constructor <;>
      (cases ht : lead.recentTweets <;> simp [goodEngagementRate, highEngagementRate, hf, ht, hneg])
  · intro h; simp [hasEngagedWithUsCrit, h]
  · intro h; simp [mutualConnectionsCrit, h]

/-- Witness for C9: on the all-fields-absent prospect every criterion the
theorem covers is false, and all three predicates evaluate (to false)
without fault. -/
theorem predicates_degrade_witness :
    hasUsername emptyLead = false ∧ relevantContent emptyLead = false ∧
    hasRecentActivity emptyLead = false ∧ activeUser emptyLead = false ∧
    reasonableFollowerCount emptyLead = false ∧ hasEngagedWithUsCrit emptyLead = false ∧
    mutualConnectionsCrit emptyLead = false ∧
    isWorthResearching emptyLead = false ∧ isWorthEngaging emptyLead = false ∧
    isHighlyQualified emptyLead = false := by
  obtain ⟨h1, h2, h3, h4, h5, h6, h7, h8⟩ := predicates_degrade_on_missing_fields emptyLead
  exact ⟨h1 rfl, (h2 rfl).1, (h3 rfl).1, (h4 rfl).1, (h5 rfl).1, h7 rfl, h8 rfl,
         by decide, by decide, by decide⟩
